import Mathlib

/-! # go-vite wallet RPC surface: `rpcapi/api/wallet.go`

A shallow embedding of the wallet API of go-vite.  The methods of `WalletApi`
sequence calls to the wallet manager, the chain, the generator and the pool.
Those collaborators are stateful, so every collaborator call takes the current
world and returns its result together with the next world; the methods also
record which collaborator calls they made, in order.
-/

namespace GoVite

/-! ## Go values -/

/-- Go `error` value, identified by what a caller can observe of it: the text
returned by `Error()`.  A nil `error` is `none : Option GoError`. -/
structure GoError where
  text : String
deriving DecidableEq, Repr

/-- One Go `byte`. -/
abbrev Byte := Fin 256

/-- Go `types.Address`, a fixed-size byte array compared with `==`. -/
structure Address where
  bytes : List Byte
deriving DecidableEq, Repr

/-- Go `types.Hash`; `Hash.Bytes()` is the field `bytes`. -/
structure Hash where
  bytes : List Byte
deriving DecidableEq, Repr

/-- Go `types.TokenTypeId`. -/
structure TokenTypeId where
  bytes : List Byte
deriving DecidableEq, Repr

/-! ## `math/big`: `(*Int).SetString(s, 10)` -/

/-- The sign scan of `big.Int.scan`: reading a byte from an empty input is an
error; a leading `-` or `+` is consumed, any other byte is unread. -/
def scanSign : List Char → Option (Bool × List Char)
  | [] => none
  | c :: rest =>
    if c = '-' then some (true, rest)
    else if c = '+' then some (false, rest)
    else some (false, c :: rest)

/-- The digit loop of `nat.scan` for base 10 without a fraction: digits are
accumulated while the next byte is `0`..`9`; the first other byte is unread.
Returns the value, the number of digits read, and the unread input. -/
def scanDigits : List Char → Nat → Nat → Nat × Nat × List Char
  | [], acc, count => (acc, count, [])
  | c :: rest, acc, count =>
    if '0' ≤ c ∧ c ≤ '9' then scanDigits rest (acc * 10 + (c.toNat - '0'.toNat)) (count + 1)
    else (acc, count, c :: rest)

/-- Go `new(big.Int).SetString(s, 10)`: `some v` for `(z, true)`, `none` for
`(nil, false)`.  The sign is scanned, then the mantissa; a mantissa without a
digit is an error, and the entire input must have been consumed.  Zero has no
sign. -/
def SetString (s : String) : Option Int :=
  match scanSign s.data with
  | none => none
  | some (neg, rest) =>
    match scanDigits rest 0 0 with
    | (abs, count, unread) =>
      if count = 0 then none
      else if unread ≠ [] then none
      else some (if neg then -(abs : Int) else (abs : Int))

/-! ## `encoding/hex` -/

/-- Go `hextable`. -/
def hextable : List Char := "0123456789abcdef".data

/-- Go `hex.Encode`: each byte `v` yields `hextable[v>>4]`, `hextable[v&0x0f]`. -/
def Encode : List Byte → List Char
  | [] => []
  | v :: rest => hextable.getD (v.val / 16) '0' :: hextable.getD (v.val % 16) '0' :: Encode rest

/-- Go `hex.EncodeToString`. -/
def EncodeToString (src : List Byte) : String := String.mk (Encode src)

/-- Go `fromHexChar` (the reverse hex table): the value of one hex digit. -/
def fromHexChar (c : Char) : Option Nat :=
  if '0' ≤ c ∧ c ≤ '9' then some (c.toNat - '0'.toNat)
  else if 'a' ≤ c ∧ c ≤ 'f' then some (c.toNat - 'a'.toNat + 10)
  else if 'A' ≤ c ∧ c ≤ 'F' then some (c.toNat - 'A'.toNat + 10)
  else none

/-- Go `hex.Decode`: pairs of hex digits `p q` yield the byte `(a << 4) | b`;
an invalid digit or an odd length is an error (`none`). -/
def Decode : List Char → Option (List Byte)
  | [] => some []
  | [_] => none
  | p :: q :: rest =>
    match fromHexChar p, fromHexChar q with
    | some a, some b =>
      match Decode rest with
      | some t => some (Fin.ofNat (a * 16 + b) :: t)
      | none => none
    | _, _ => none

/-- Go `hex.DecodeString`. -/
def DecodeString (s : String) : Option (List Byte) := Decode s.data

/-! ## Data carried through the API -/

/-- Go `HexSignedTuple`. -/
structure HexSignedTuple where
  Message : String
  SignedData : String
  Pubkey : String
deriving DecidableEq, Repr

/-- Go `FindAddrResult`; `Index` is a `uint32`, never computed with here. -/
structure FindAddrResult where
  EntropyStoreFile : String
  Index : Nat
deriving DecidableEq, Repr

/-- Go `CreateTransferTxParms`; the two pointer fields are options. -/
structure CreateTransferTxParms where
  EntropystoreFile : Option String
  SelfAddr : Address
  ToAddr : Address
  TokenTypeId : TokenTypeId
  Passphrase : String
  Amount : String
  Data : List Byte
  Difficulty : Option String
deriving DecidableEq, Repr

/-- Go `ledger.BlockType*`; the API only ever uses `BlockTypeSendCall`. -/
inductive BlockType where
  | BlockTypeSendCreate
  | BlockTypeSendCall
deriving DecidableEq, Repr

/-- Go `interfaces.IncomingMessage`. -/
structure IncomingMessage where
  BlockType : BlockType
  AccountAddress : Address
  ToAddress : Option Address
  TokenId : Option TokenTypeId
  Amount : Option Int
  Fee : Option Int
  Difficulty : Option Int
  Data : List Byte
deriving DecidableEq, Repr

/-- Go `ledger.AddressState`, as far as the API reads it. -/
structure AddressState where
  LatestSnapshotHash : Hash
  LatestAccountHash : Hash
deriving DecidableEq, Repr

/-- Go `ledger.AccountBlock`, as far as the API reads it. -/
structure AccountBlock where
  Hash : Hash
deriving DecidableEq, Repr

/-- Go `interfaces.VmAccountBlock`. -/
structure VmAccountBlock where
  AccountBlock : AccountBlock
  VmDb : Nat
deriving DecidableEq, Repr

/-- Go `generator.GenerateResult`. -/
structure GenerateResult where
  VMBlock : Option VmAccountBlock
  IsRetry : Bool
  Err : Option GoError
deriving DecidableEq, Repr

/-- Handle of a `*generator.Generator`. -/
structure Generator where
  id : Nat
deriving DecidableEq, Repr

/-- Handle of a `*wallet.Account`; its `Sign` method is a collaborator call. -/
structure Account where
  id : Nat
deriving DecidableEq, Repr

/-- Handle of an `*entropystore.Manager`; `GetEntropyStoreFile()` reads the
file name it was opened with. -/
structure Manager where
  EntropyStoreFile : String
deriving DecidableEq, Repr

/-! ## Collaborators -/

/-- The collaborator calls a method of `WalletApi` can make, with their
arguments. -/
inductive Call where
  | checkTokenIdValid (tokenId : TokenTypeId)
  | GetAddressStateForGenerator (addr : Address)
  | NewGenerator (addr : Address) (snapshotHash accountHash : Hash)
  | AccountSearch (entropyStore : Option String) (addr : Address) (passphrase : String)
  | GenerateWithMessage (g : Generator) (msg : IncomingMessage) (producer : Address)
      (signer : Account)
  | AddDirectAccountBlock (addr : Address) (block : VmAccountBlock)
  | Account (addr : Address)
  | Sign (account : Account) (data : List Byte)
  | GetEntropyStoreManager (entropyStore : String)
  | FindAddr (manager : Manager) (addr : Address)
  | FindAddrWithPassphrase (manager : Manager) (passphrase : String) (addr : Address)
deriving DecidableEq, Repr

/-- Everything `wallet.go` calls but does not define.  `σ` is the state of the
world the collaborators read and write (key stores, chain, pool).

Pure helpers and package-level values come first.  A stateful call returns
its Go results and the next world.  Where the source tests only the error of
a `(value, error)` pair and then uses the value, the pair is an `Except`;
where the source reads the value whatever the error, or tests the value for
nil itself, both components are kept. -/
structure WalletApi (σ : Type) where
  checkTxToAddressAvailable : Address → Bool
  AddressDexFund : Address
  VerifyNewOrderPriceForRpc : List Byte → Bool
  InvalidOrderPriceErr : GoError
  ErrStrToBigInt : GoError
  HexToHash : String → Except GoError Hash
  checkTokenIdValid : σ → TokenTypeId → Option GoError × σ
  GetAddressStateForGenerator : σ → Address → (Option AddressState × Option GoError) × σ
  NewGenerator : σ → Address → Hash → Hash → Except GoError Generator × σ
  AccountSearch : σ → Option String → Address → String → Except GoError Account × σ
  GenerateWithMessage :
    σ → Generator → IncomingMessage → Address → Account → Except GoError GenerateResult × σ
  AddDirectAccountBlock : σ → Address → VmAccountBlock → Option GoError × σ
  Sign : σ → Account → List Byte → Except GoError (List Byte × List Byte) × σ
  Account : σ → Address → Except GoError GoVite.Account × σ
  GetEntropyStoreManager : σ → String → Except GoError Manager × σ
  FindAddr : σ → Manager → Address → (Nat × Option GoError) × σ
  FindAddrWithPassphrase : σ → Manager → String → Address → (Nat × Option GoError) × σ

/-- What a method returns: the Go result pair `(value, error)`, the source
line of the `return` statement that produced it, the collaborator calls made
(oldest first) and the world they left behind. -/
structure Outcome (σ α : Type) where
  value : Option α
  err : Option GoError
  line : Nat
  calls : List Call
  world : σ

/-! ## Errors built by `wallet.go` itself -/

/-- Go `errors.New("ToAddress is invalid")`. -/
def errToAddressInvalid : GoError := ⟨"ToAddress is invalid"⟩

/-- Go `errors.New("generator gen an empty block")`. -/
def errEmptyBlock : GoError := ⟨"generator gen an empty block"⟩

/-- The verb `%v` of `fmt` applied to an `error`: `<nil>` for a nil error,
the text of `Error()` otherwise. -/
def fmtV (err : Option GoError) : String :=
  match err with
  | none => "<nil>"
  | some e => e.text

/-- Go `fmt.Errorf("failed to get addr state for generator, err:%v", err)`. -/
def errAddrState (err : Option GoError) : GoError :=
  ⟨"failed to get addr state for generator, err:" ++ fmtV err⟩

/-! ## `WalletApi` methods -/

variable {σ : Type}

/-- Go `WalletApi.FindAddrWithPassphrase` (wallet.go 198-209). -/
def FindAddrWithPassphrase (m : WalletApi σ) (w : σ) (entropyStore : String)
    (passphrase : String) (addr : Address) : Outcome σ FindAddrResult :=
  match m.GetEntropyStoreManager w entropyStore with
  | (.error e, w1) => ⟨none, some e, 201, [.GetEntropyStoreManager entropyStore], w1⟩
  | (.ok manager, w1) =>
    match m.FindAddrWithPassphrase w1 manager passphrase addr with
    | ((index, _), w2) =>
      ⟨some ⟨manager.EntropyStoreFile, index⟩, none, 204,
        [.GetEntropyStoreManager entropyStore, .FindAddrWithPassphrase manager passphrase addr],
        w2⟩

/-- Go `WalletApi.FindAddr` (wallet.go 211-221). -/
def FindAddr (m : WalletApi σ) (w : σ) (entropyStore : String) (addr : Address) :
    Outcome σ FindAddrResult :=
  match m.GetEntropyStoreManager w entropyStore with
  | (.error e, w1) => ⟨none, some e, 214, [.GetEntropyStoreManager entropyStore], w1⟩
  | (.ok manager, w1) =>
    match m.FindAddr w1 manager addr with
    | ((index, _), w2) =>
      ⟨some ⟨manager.EntropyStoreFile, index⟩, none, 217,
        [.GetEntropyStoreManager entropyStore, .FindAddr manager addr], w2⟩

/-- Go `WalletApi.SignData` (wallet.go 250-272). -/
def SignData (m : WalletApi σ) (w : σ) (addr : Address) (hexMsg : String) :
    Outcome σ HexSignedTuple :=
  match m.HexToHash hexMsg with
  | .error err => ⟨none, some err, 253, [], w⟩
  | .ok hash =>
    match m.Account w addr with
    | (.error e, w1) => ⟨none, some e, 257, [.Account addr], w1⟩
    | (.ok account, w1) =>
      match m.Sign w1 account hash.bytes with
      | (.error err, w2) => ⟨none, some err, 262, [.Account addr, .Sign account hash.bytes], w2⟩
      | (.ok (signedData, pubkey), w2) =>
        ⟨some ⟨hexMsg, EncodeToString signedData, EncodeToString pubkey⟩, none, 271,
          [.Account addr, .Sign account hash.bytes], w2⟩

/-- Go `WalletApi.SignDataWithPassphrase` (wallet.go 336-357). -/
def SignDataWithPassphrase (m : WalletApi σ) (w : σ) (addr : Address) (hexMsg : String)
    (passphrase : String) : Outcome σ HexSignedTuple :=
  match m.HexToHash hexMsg with
  | .error err => ⟨none, some err, 339, [], w⟩
  | .ok hash =>
    match m.AccountSearch w none addr passphrase with
    | (.error err, w1) => ⟨none, some err, 343, [.AccountSearch none addr passphrase], w1⟩
    | (.ok account, w1) =>
      match m.Sign w1 account hash.bytes with
      | (.error err, w2) =>
        ⟨none, some err, 347, [.AccountSearch none addr passphrase, .Sign account hash.bytes], w2⟩
      | (.ok (signedData, pubkey), w2) =>
        ⟨some ⟨hexMsg, EncodeToString signedData, EncodeToString pubkey⟩, none, 356,
          [.AccountSearch none addr passphrase, .Sign account hash.bytes], w2⟩

/-- The `IncomingMessage` literal of `CreateTxWithPassphrase` (wallet.go
296-305). -/
def incomingMessage (params : CreateTransferTxParms) (amount : Int) (difficulty : Option Int) :
    IncomingMessage :=
  { BlockType := .BlockTypeSendCall
    AccountAddress := params.SelfAddr
    ToAddress := some params.ToAddr
    TokenId := some params.TokenTypeId
    Amount := some amount
    Fee := none
    Difficulty := difficulty
    Data := params.Data }

/-- Go `WalletApi.CreateTxWithPassphrase` from the address-state lookup on
(wallet.go 307-333), entered with the message `msg`, the world `w` and the
calls `pre` made so far. -/
def generateAndSubmit (m : WalletApi σ) (w : σ) (pre : List Call)
    (params : CreateTransferTxParms) (msg : IncomingMessage) : Outcome σ Hash :=
  let c1 := Call.GetAddressStateForGenerator msg.AccountAddress
  match m.GetAddressStateForGenerator w msg.AccountAddress with
  | ((_, some err), w1) => ⟨none, some (errAddrState (some err)), 309, pre ++ [c1], w1⟩
  | ((none, none), w1) => ⟨none, some (errAddrState none), 309, pre ++ [c1], w1⟩
  | ((some addrState, none), w1) =>
    let c2 := Call.NewGenerator msg.AccountAddress addrState.LatestSnapshotHash
      addrState.LatestAccountHash
    match m.NewGenerator w1 msg.AccountAddress addrState.LatestSnapshotHash
        addrState.LatestAccountHash with
    | (.error e, w2) => ⟨none, some e, 313, pre ++ [c1, c2], w2⟩
    | (.ok g, w2) =>
      let c3 := Call.AccountSearch params.EntropystoreFile msg.AccountAddress params.Passphrase
      match m.AccountSearch w2 params.EntropystoreFile msg.AccountAddress params.Passphrase with
      | (.error err, w3) => ⟨none, some err, 318, pre ++ [c1, c2, c3], w3⟩
      | (.ok account, w3) =>
        let c4 := Call.GenerateWithMessage g msg msg.AccountAddress account
        match m.GenerateWithMessage w3 g msg msg.AccountAddress account with
        | (.error e, w4) => ⟨none, some e, 323, pre ++ [c1, c2, c3, c4], w4⟩
        | (.ok result, w4) =>
          match result.Err with
          | some d => ⟨none, some d, 326, pre ++ [c1, c2, c3, c4], w4⟩
          | none =>
            match result.VMBlock with
            | some block =>
              match m.AddDirectAccountBlock w4 params.SelfAddr block with
              | (perr, w5) =>
                ⟨some block.AccountBlock.Hash, perr, 329,
                  pre ++ [c1, c2, c3, c4, .AddDirectAccountBlock params.SelfAddr block], w5⟩
            | none => ⟨none, some errEmptyBlock, 331, pre ++ [c1, c2, c3, c4], w4⟩

/-- Go `WalletApi.CreateTxWithPassphrase` (wallet.go 274-334). -/
def CreateTxWithPassphrase (m : WalletApi σ) (w : σ) (params : CreateTransferTxParms) :
    Outcome σ Hash :=
  if !m.checkTxToAddressAvailable params.ToAddr then
    ⟨none, some errToAddressInvalid, 276, [], w⟩
  else if params.ToAddr = m.AddressDexFund && !m.VerifyNewOrderPriceForRpc params.Data then
    ⟨none, some m.InvalidOrderPriceErr, 279, [], w⟩
  else
    match SetString params.Amount with
    | none => ⟨none, some m.ErrStrToBigInt, 283, [], w⟩
    | some amount =>
      let c0 := Call.checkTokenIdValid params.TokenTypeId
      match m.checkTokenIdValid w params.TokenTypeId with
      | (some err, w1) => ⟨none, some err, 286, [c0], w1⟩
      | (none, w1) =>
        match params.Difficulty with
        | none => generateAndSubmit m w1 [c0] params (incomingMessage params amount none)
        | some d =>
          match SetString d with
          | none => ⟨none, some m.ErrStrToBigInt, 292, [c0], w1⟩
          | some difficulty =>
            generateAndSubmit m w1 [c0] params (incomingMessage params amount (some difficulty))

/-! ## Vocabulary of the properties -/

/-- The request passed every check of wallet.go 275-294: recipient,
order price, amount, token and difficulty.  `msg` is the message built at
296-305 and `w1` the world left by the token check. -/
def Validated (m : WalletApi σ) (w : σ) (params : CreateTransferTxParms)
    (msg : IncomingMessage) (w1 : σ) : Prop :=
  m.checkTxToAddressAvailable params.ToAddr = true ∧
  (params.ToAddr = m.AddressDexFund → m.VerifyNewOrderPriceForRpc params.Data = true) ∧
  m.checkTokenIdValid w params.TokenTypeId = (none, w1) ∧
  ∃ amount difficulty,
    SetString params.Amount = some amount ∧
    ((params.Difficulty = none ∧ difficulty = none) ∨
      ∃ d v, params.Difficulty = some d ∧ SetString d = some v ∧ difficulty = some v) ∧
    msg = incomingMessage params amount difficulty

/-- The natural number written by decimal digits, most significant first. -/
def decimalValue (digits : List Char) : Nat :=
  Nat.ofDigits 10 ((digits.map fun c => c.toNat - '0'.toNat).reverse)

/-- The string is an optional `+` or `-` followed by one or more decimal
digits, and `v` is the integer so written. -/
def Denotes (s : String) (v : Int) : Prop :=
  ∃ sign digits, s.data = sign ++ digits ∧ digits ≠ [] ∧
    (∀ c ∈ digits, '0' ≤ c ∧ c ≤ '9') ∧
    ((sign = [] ∧ v = decimalValue digits) ∨
     (sign = ['+'] ∧ v = decimalValue digits) ∨
     (sign = ['-'] ∧ v = -(decimalValue digits : Int)))

/-- Whether a `return` line of `CreateTxWithPassphrase` lies before key
resolution, the `AccountSearch` call of line 316. -/
def returnsBeforeKeyResolution (line : Nat) : Bool := decide (line ≤ 313)

/-- Whether a `return` line of `CreateTxWithPassphrase` returns an error the
function produces itself (a literal, a package-level error value or the
formatted lookup error) instead of one a collaborator call handed back. -/
def returnsOwnError (line : Nat) : Bool := decide (line ∈ [276, 279, 283, 292, 309, 331])

/-- Whether a call is a submission to the pool. -/
def Call.isPoolCall : Call → Bool
  | .AddDirectAccountBlock _ _ => true
  | _ => false

/-- Whether a call reaches the chain state of an address, the generator, the
key stores or the pool, that is, any step after input validation. -/
def Call.isAfterValidation : Call → Bool
  | .checkTokenIdValid _ => false
  | _ => true

/-- Whether a call goes to the wallet (key lookup or signing) and nowhere
else. -/
def Call.isWalletCall : Call → Bool
  | .Account _ => true
  | .AccountSearch _ _ _ => true
  | .Sign _ _ => true
  | _ => false

/-! ## A concrete deployment, for evaluating the methods -/

/-- A small deployment over a world that counts collaborator calls.  The
recipient `[0]` is reserved, `[6]` is the exchange-order contract, whose
payload must be exactly one byte; token `[9]` is unknown; the store `main`
holds no address at all; every lookup, generation and submission succeeds. -/
def demoApi : WalletApi Nat where
  checkTxToAddressAvailable := fun a => decide (a ≠ ⟨[0]⟩)
  AddressDexFund := ⟨[6]⟩
  VerifyNewOrderPriceForRpc := fun d => decide (d.length = 1)
  InvalidOrderPriceErr := ⟨"invalid order price format"⟩
  ErrStrToBigInt := ⟨"convert to big.Int failed"⟩
  HexToHash := fun s =>
    match DecodeString s with
    | some b => if b.length = 2 then .ok ⟨b⟩ else .error ⟨"error hex hash size"⟩
    | none => .error ⟨"encoding/hex: invalid byte"⟩
  checkTokenIdValid := fun w t =>
    (if t = ⟨[9]⟩ then some ⟨"token does not exist"⟩ else none, w + 1)
  GetAddressStateForGenerator := fun w _ => ((some ⟨⟨[1]⟩, ⟨[2]⟩⟩, none), w + 1)
  NewGenerator := fun w _ _ _ => (.ok ⟨7⟩, w + 1)
  AccountSearch := fun w _ _ pass =>
    (if pass = "secret" then .ok ⟨3⟩ else .error ⟨"error decrypting key"⟩, w + 1)
  GenerateWithMessage := fun w _ _ _ _ => (.ok ⟨some ⟨⟨⟨[5]⟩⟩, 0⟩, false, none⟩, w + 1)
  AddDirectAccountBlock := fun w _ _ => (none, w + 1)
  Sign := fun w _ data => (.ok (data ++ [171], [205, 239]), w + 1)
  Account := fun w _ => (.ok ⟨3⟩, w + 1)
  GetEntropyStoreManager := fun w s =>
    (if s = "main" then .ok ⟨"main"⟩ else .error ⟨"entropy store not found"⟩, w + 1)
  FindAddr := fun w _ _ => ((0, some ⟨"address not found"⟩), w + 1)
  FindAddrWithPassphrase := fun w _ _ _ => ((0, some ⟨"address not found"⟩), w + 1)

/-- The demo deployment with a pool that rejects every block. -/
def rejectingPoolApi : WalletApi Nat :=
  { demoApi with AddDirectAccountBlock := fun w _ _ => (some ⟨"pool: block conflict"⟩, w + 1) }

/-- The demo deployment with a generator whose call fails outright. -/
def failingGeneratorApi : WalletApi Nat :=
  { demoApi with GenerateWithMessage := fun w _ _ _ _ => (.error ⟨"generator: vm panic"⟩, w + 1) }

/-- The demo deployment with a generator whose result carries both a block
and a domain error. -/
def domainErrorApi : WalletApi Nat :=
  { demoApi with
    GenerateWithMessage := fun w _ _ _ _ =>
      (.ok ⟨some ⟨⟨⟨[5]⟩⟩, 0⟩, false, some ⟨"insufficient balance for transfer"⟩⟩, w + 1) }

/-- The demo deployment with a generator whose result carries neither a
block nor an error. -/
def emptyResultApi : WalletApi Nat :=
  { demoApi with GenerateWithMessage := fun w _ _ _ _ => (.ok ⟨none, false, none⟩, w + 1) }

/-- The demo deployment with a chain on which no address has any state. -/
def noStateApi : WalletApi Nat :=
  { demoApi with GetAddressStateForGenerator := fun w _ => ((none, none), w + 1) }

/-- The demo deployment with a chain whose address-state lookup fails with
an error that prints as `<nil>`. -/
def nilTextLookupApi : WalletApi Nat :=
  { demoApi with GetAddressStateForGenerator := fun w _ => ((none, some ⟨"<nil>"⟩), w + 1) }

/-- A well-formed transfer of 10 units from `[4]` to `[8]`. -/
def demoRequest : CreateTransferTxParms where
  EntropystoreFile := none
  SelfAddr := ⟨[4]⟩
  ToAddr := ⟨[8]⟩
  TokenTypeId := ⟨[1]⟩
  Passphrase := "secret"
  Amount := "10"
  Data := []
  Difficulty := none

/-! ## Theorems -/

/-! ### `SetString` accepts exactly the signed decimal numerals -/

/-- The value of a numeral in terms of its leading digit. -/
theorem decimalValue_cons (c : Char) (rest : List Char) :
    decimalValue (c :: rest) = (c.toNat - '0'.toNat) * 10 ^ rest.length + decimalValue rest := by
  simp [decimalValue, Nat.ofDigits_append]
  ring

/-- On digits only, the digit loop reads everything and accumulates the
decimal value. -/
theorem scanDigits_of_digits (ds : List Char) :
    ∀ acc cnt, (∀ c ∈ ds, '0' ≤ c ∧ c ≤ '9') →
      scanDigits ds acc cnt = (acc * 10 ^ ds.length + decimalValue ds, cnt + ds.length, []) := by
  induction ds with
  | nil => intro acc cnt _; simp [scanDigits, decimalValue]
  | cons c rest ih =>
    intro acc cnt h
    have hc := h c (List.mem_cons_self _ _)
    have hr : ∀ x ∈ rest, '0' ≤ x ∧ x ≤ '9' := fun x hx => h x (List.mem_cons_of_mem _ hx)
    rw [scanDigits, if_pos hc, ih _ _ hr, decimalValue_cons]
    simp only [List.length_cons, Prod.mk.injEq, and_true]
    constructor
    · ring
    · omega

/-- If the digit loop leaves nothing unread, the input was digits only. -/
theorem scanDigits_unread_nil (l : List Char) :
    ∀ acc cnt a c, scanDigits l acc cnt = (a, c, []) → ∀ x ∈ l, '0' ≤ x ∧ x ≤ '9' := by
  induction l with
  | nil => intro _ _ _ _ _ x hx; cases hx
  | cons c rest ih =>
    intro acc cnt a k h x hx
    by_cases hc : '0' ≤ c ∧ c ≤ '9'
    · rw [scanDigits, if_pos hc] at h
      rcases List.mem_cons.mp hx with rfl | hx
      · exact hc
      · exact ih _ _ _ _ h x hx
    · rw [scanDigits, if_neg hc] at h
      simp at h

/-- The mantissa part of `SetString`: it succeeds exactly on a non-empty run
of digits, with the signed decimal value. -/
theorem scan_mantissa (body : List Char) (neg : Bool) (v : Int) :
    (match scanDigits body 0 0 with
      | (abs, count, unread) =>
        if count = 0 then none
        else if unread ≠ [] then none
        else some (if neg then -(abs : Int) else (abs : Int))) = some v ↔
    (body ≠ [] ∧ (∀ c ∈ body, '0' ≤ c ∧ c ≤ '9') ∧
      v = if neg then -(decimalValue body : Int) else (decimalValue body : Int)) := by
  by_cases hall : ∀ c ∈ body, '0' ≤ c ∧ c ≤ '9'
  · rw [scanDigits_of_digits body 0 0 hall]
    cases body with
    | nil => simp
    | cons c rest =>
      have hne : (c :: rest) ≠ [] := List.cons_ne_nil _ _
      simp only [zero_mul, zero_add, List.length_cons, Nat.add_one_ne_zero, if_false, ne_eq,
        not_true_eq_false, Option.some.injEq]
      constructor
      · intro h
        exact ⟨hne, hall, h.symm⟩
      · intro h
        exact h.2.2.symm
  · rcases hsd : scanDigits body 0 0 with ⟨a, c, u⟩
    have hu : u ≠ [] := by
      rintro rfl
      exact hall (scanDigits_unread_nil body 0 0 a c hsd)
    constructor
    · intro h
      simp only [hu, ne_eq, not_false_eq_true, if_true] at h
      split at h <;> exact Option.noConfusion h
    · intro h
      exact absurd h.2.1 hall

/-- The model of `SetString` returns `v` exactly when the string is an optional
sign followed by one or more decimal digits writing `v`. -/
theorem SetString_iff (s : String) (v : Int) : SetString s = some v ↔ Denotes s v := by
  unfold SetString Denotes
  cases hs : s.data with
  | nil =>
    simp [scanSign]
  | cons c rest =>
    by_cases hm : c = '-'
    · subst hm
      have key := scan_mantissa rest true v
      have hsign : scanSign ('-' :: rest) = some (true, rest) := by simp [scanSign]
      rw [hsign]
      refine key.trans ?_
      constructor
      · rintro ⟨h1, h2, h3⟩
        exact ⟨['-'], rest, rfl, h1, h2, Or.inr (Or.inr ⟨rfl, by simpa using h3⟩)⟩
      · rintro ⟨sign, digits, heq, hne, hd, (⟨rfl, hv⟩ | ⟨rfl, hv⟩ | ⟨rfl, hv⟩)⟩
        · exfalso
          cases digits with
          | nil => exact hne rfl
          | cons x xs =>
            simp only [List.nil_append, List.cons.injEq] at heq
            have := hd x (List.mem_cons_self _ _)
            rw [← heq.1] at this
            exact absurd this (by decide)
        · simp only [List.singleton_append, List.cons.injEq] at heq
          exact absurd heq.1 (by decide)
        · simp only [List.singleton_append, List.cons.injEq, true_and] at heq
          subst heq
          exact ⟨hne, hd, by simpa using hv⟩
    · by_cases hp : c = '+'
      · subst hp
        have key := scan_mantissa rest false v
        have hsign : scanSign ('+' :: rest) = some (false, rest) := by simp [scanSign]
        rw [hsign]
        refine key.trans ?_
        constructor
        · rintro ⟨h1, h2, h3⟩
          exact ⟨['+'], rest, rfl, h1, h2, Or.inr (Or.inl ⟨rfl, by simpa using h3⟩)⟩
        · rintro ⟨sign, digits, heq, hne, hd, (⟨rfl, hv⟩ | ⟨rfl, hv⟩ | ⟨rfl, hv⟩)⟩
          · exfalso
            cases digits with
            | nil => exact hne rfl
            | cons x xs =>
              simp only [List.nil_append, List.cons.injEq] at heq
              have := hd x (List.mem_cons_self _ _)
              rw [← heq.1] at this
              exact absurd this (by decide)
          · simp only [List.singleton_append, List.cons.injEq, true_and] at heq
            subst heq
            exact ⟨hne, hd, by simpa using hv⟩
          · simp only [List.singleton_append, List.cons.injEq] at heq
            exact absurd heq.1 (by decide)
      · have key := scan_mantissa (c :: rest) false v
        have hsign : scanSign (c :: rest) = some (false, c :: rest) := by simp [scanSign, hm, hp]
        rw [hsign]
        refine key.trans ?_
        constructor
        · rintro ⟨h1, h2, h3⟩
          exact ⟨[], c :: rest, rfl, h1, h2, Or.inl ⟨rfl, by simpa using h3⟩⟩
        · rintro ⟨sign, digits, heq, hne, hd, (⟨rfl, hv⟩ | ⟨rfl, hv⟩ | ⟨rfl, hv⟩)⟩
          · simp only [List.nil_append] at heq
            subst heq
            exact ⟨hne, hd, by simpa using hv⟩
          · simp only [List.singleton_append, List.cons.injEq] at heq
            exact absurd heq.1 hp
          · simp only [List.singleton_append, List.cons.injEq] at heq
            exact absurd heq.1 hm
/-! ### Shape of a run of `CreateTxWithPassphrase` -/

/-- A validated request continues at the address-state lookup with the
message built from it. -/
theorem create_of_validated (m : WalletApi σ) (w : σ) (params : CreateTransferTxParms)
    (msg : IncomingMessage) (w1 : σ) (hv : Validated m w params msg w1) :
    CreateTxWithPassphrase m w params =
      generateAndSubmit m w1 [.checkTokenIdValid params.TokenTypeId] params msg := by
  obtain ⟨hto, hdex, htok, amount, difficulty, ham, hdiff, hmsg⟩ := hv
  have hdex2 : ¬ (params.ToAddr = m.AddressDexFund ∧ m.VerifyNewOrderPriceForRpc params.Data = false) := by
    rintro ⟨h1, h2⟩
    rw [hdex h1] at h2
    exact Bool.noConfusion h2
  subst hmsg
  rcases hdiff with ⟨hd, rfl⟩ | ⟨d, v, hd, hs, rfl⟩
  · simp [CreateTxWithPassphrase, hto, hdex2, ham, htok, hd]
  · simp [CreateTxWithPassphrase, hto, hdex2, ham, htok, hd, hs]

/-- Every run of `CreateTxWithPassphrase` either stops at one of the five
validation returns, having made at most the token check, or is a validated
request continuing at the address-state lookup.  Each return is listed with
the condition under which it is taken. -/
theorem create_cases (m : WalletApi σ) (w : σ) (params : CreateTransferTxParms) :
    (m.checkTxToAddressAvailable params.ToAddr = false ∧
      CreateTxWithPassphrase m w params = ⟨none, some errToAddressInvalid, 276, [], w⟩) ∨
    (m.checkTxToAddressAvailable params.ToAddr = true ∧
      params.ToAddr = m.AddressDexFund ∧ m.VerifyNewOrderPriceForRpc params.Data = false ∧
      CreateTxWithPassphrase m w params = ⟨none, some m.InvalidOrderPriceErr, 279, [], w⟩) ∨
    (m.checkTxToAddressAvailable params.ToAddr = true ∧
      (params.ToAddr = m.AddressDexFund → m.VerifyNewOrderPriceForRpc params.Data = true) ∧
      SetString params.Amount = none ∧
      CreateTxWithPassphrase m w params = ⟨none, some m.ErrStrToBigInt, 283, [], w⟩) ∨
    (∃ amount err w1, m.checkTxToAddressAvailable params.ToAddr = true ∧
      (params.ToAddr = m.AddressDexFund → m.VerifyNewOrderPriceForRpc params.Data = true) ∧
      SetString params.Amount = some amount ∧
      m.checkTokenIdValid w params.TokenTypeId = (some err, w1) ∧
      CreateTxWithPassphrase m w params =
        ⟨none, some err, 286, [.checkTokenIdValid params.TokenTypeId], w1⟩) ∨
    (∃ amount w1 d, m.checkTxToAddressAvailable params.ToAddr = true ∧
      (params.ToAddr = m.AddressDexFund → m.VerifyNewOrderPriceForRpc params.Data = true) ∧
      SetString params.Amount = some amount ∧
      m.checkTokenIdValid w params.TokenTypeId = (none, w1) ∧
      params.Difficulty = some d ∧ SetString d = none ∧
      CreateTxWithPassphrase m w params =
        ⟨none, some m.ErrStrToBigInt, 292, [.checkTokenIdValid params.TokenTypeId], w1⟩) ∨
    (∃ msg w1, Validated m w params msg w1 ∧
      CreateTxWithPassphrase m w params =
        generateAndSubmit m w1 [.checkTokenIdValid params.TokenTypeId] params msg) := by
  by_cases hto : m.checkTxToAddressAvailable params.ToAddr = true
  swap
  · left
    simp only [Bool.not_eq_true] at hto
    exact ⟨hto, by simp [CreateTxWithPassphrase, hto]⟩
  by_cases hdex : params.ToAddr = m.AddressDexFund ∧ m.VerifyNewOrderPriceForRpc params.Data = false
  · right; left
    refine ⟨hto, hdex.1, hdex.2, ?_⟩
    simp only [CreateTxWithPassphrase]
    rw [if_neg (by simp [hto]), if_pos (by simp [hdex.1, hdex.2])]
  have hdex2 : params.ToAddr = m.AddressDexFund → m.VerifyNewOrderPriceForRpc params.Data = true := by
    intro h
    cases hv : m.VerifyNewOrderPriceForRpc params.Data
    · exact absurd ⟨h, hv⟩ hdex
    · rfl
  cases ham : SetString params.Amount with
  | none =>
    right; right; left
    exact ⟨hto, hdex2, rfl, by simp [CreateTxWithPassphrase, hto, hdex, ham]⟩
  | some amount =>
    rcases htok : m.checkTokenIdValid w params.TokenTypeId with ⟨terr, w1⟩
    cases terr with
    | some err =>
      right; right; right; left
      exact ⟨amount, err, w1, hto, hdex2, rfl, rfl,
        by simp [CreateTxWithPassphrase, hto, hdex, ham, htok]⟩
    | none =>
      cases hd : params.Difficulty with
      | none =>
        have hv : Validated m w params (incomingMessage params amount none) w1 :=
          ⟨hto, hdex2, htok, amount, none, ham, Or.inl ⟨hd, rfl⟩, rfl⟩
        right; right; right; right; right
        exact ⟨_, w1, hv, create_of_validated m w params _ w1 hv⟩
      | some d =>
        cases hs : SetString d with
        | none =>
          right; right; right; right; left
          exact ⟨amount, w1, d, hto, hdex2, rfl, rfl, rfl, hs,
            by simp [CreateTxWithPassphrase, hto, hdex, ham, htok, hd, hs]⟩
        | some v =>
          have hv : Validated m w params (incomingMessage params amount (some v)) w1 :=
            ⟨hto, hdex2, htok, amount, some v, ham, Or.inr ⟨d, v, hd, hs, rfl⟩, rfl⟩
          right; right; right; right; right
          exact ⟨_, w1, hv, create_of_validated m w params _ w1 hv⟩

/-- The second half of `CreateTxWithPassphrase` returns from line 309 or
later. -/
theorem generateAndSubmit_line (m : WalletApi σ) (w : σ) (pre : List Call)
    (params : CreateTransferTxParms) (msg : IncomingMessage) :
    309 ≤ (generateAndSubmit m w pre params msg).line := by
  unfold generateAndSubmit
  dsimp only
  repeat' split
  all_goals simp

/-- Every generator call made by the second half of `CreateTxWithPassphrase`
carries the message it was entered with. -/
theorem generateAndSubmit_generate (m : WalletApi σ) (w : σ) (pre : List Call)
    (params : CreateTransferTxParms) (msg : IncomingMessage)
    (g : Generator) (msg2 : IncomingMessage) (producer : Address) (signer : Account)
    (h : Call.GenerateWithMessage g msg2 producer signer ∈
      (generateAndSubmit m w pre params msg).calls) :
    Call.GenerateWithMessage g msg2 producer signer ∈ pre ∨ msg2 = msg := by
  unfold generateAndSubmit at h
  dsimp only at h
  repeat' split at h
  all_goals simp at h
  all_goals tauto

/-- The second half of `CreateTxWithPassphrase` keeps the calls made before
it at the front of its call list. -/
theorem generateAndSubmit_head (m : WalletApi σ) (w : σ) (c : Call) (pre : List Call)
    (params : CreateTransferTxParms) (msg : IncomingMessage) :
    (generateAndSubmit m w (c :: pre) params msg).calls.head? = some c := by
  unfold generateAndSubmit
  dsimp only
  repeat' split
  all_goals simp

/-! ### C1: hash and error on a rejected submission -/

/-- C1 (fails on the code): with a pool that rejects the generated block,
`CreateTxWithPassphrase` returns, from line 329, both the hash of the block and
the error of the pool. -/
theorem C1_hash_with_error_when_pool_rejects :
    (CreateTxWithPassphrase rejectingPoolApi 0 demoRequest).value = some ⟨[5]⟩ ∧
    (CreateTxWithPassphrase rejectingPoolApi 0 demoRequest).err =
      some ⟨"pool: block conflict"⟩ ∧
    (CreateTxWithPassphrase rejectingPoolApi 0 demoRequest).line = 329 := by
  decide

/-! ### C2: `FindAddr` and `FindAddrWithPassphrase` -/

/-- C2 (fails on the code): once the store is found, `FindAddr` and
`FindAddrWithPassphrase` return a result and a nil error although the lookup
of the address in the store failed; the result carries the index that came
with the failure. -/
theorem C2_find_addr_drops_lookup_error (m : WalletApi σ) (w w1 w2 w3 : σ)
    (entropyStore passphrase : String) (addr : Address) (manager : Manager)
    (index index2 : Nat) (e e2 : GoError)
    (hm : m.GetEntropyStoreManager w entropyStore = (.ok manager, w1))
    (hf : m.FindAddr w1 manager addr = ((index, some e), w2))
    (hp : m.FindAddrWithPassphrase w1 manager passphrase addr = ((index2, some e2), w3)) :
    (FindAddr m w entropyStore addr).value = some ⟨manager.EntropyStoreFile, index⟩ ∧
    (FindAddr m w entropyStore addr).err = none ∧
    (FindAddrWithPassphrase m w entropyStore passphrase addr).value =
      some ⟨manager.EntropyStoreFile, index2⟩ ∧
    (FindAddrWithPassphrase m w entropyStore passphrase addr).err = none := by
  simp [FindAddr, FindAddrWithPassphrase, hm, hf, hp]

/-- C2, at the store `main` of the demo deployment, which holds no address. -/
theorem C2_find_addr_drops_lookup_error_witness :
    (FindAddr demoApi 0 "main" ⟨[4]⟩).value = some ⟨"main", 0⟩ ∧
    (FindAddr demoApi 0 "main" ⟨[4]⟩).err = none ∧
    (FindAddrWithPassphrase demoApi 0 "main" "secret" ⟨[4]⟩).value = some ⟨"main", 0⟩ ∧
    (FindAddrWithPassphrase demoApi 0 "main" "secret" ⟨[4]⟩).err = none :=
  C2_find_addr_drops_lookup_error demoApi 0 1 2 2 "main" "secret" ⟨[4]⟩ ⟨"main"⟩ 0 0
    ⟨"address not found"⟩ ⟨"address not found"⟩ rfl rfl rfl

/-! ### C4: the order-price check -/

/-- C4: a request to the exchange-order contract that passes the recipient
check and fails the order-price check returns no hash and exactly
`dex.InvalidOrderPriceErr`, from line 279, with no collaborator call made and
the world untouched. -/
theorem C4_invalid_order_price (m : WalletApi σ) (w : σ) (params : CreateTransferTxParms)
    (hto : m.checkTxToAddressAvailable params.ToAddr = true)
    (hdex : params.ToAddr = m.AddressDexFund)
    (hprice : m.VerifyNewOrderPriceForRpc params.Data = false) :
    CreateTxWithPassphrase m w params = ⟨none, some m.InvalidOrderPriceErr, 279, [], w⟩ := by
  simp only [CreateTxWithPassphrase]
  rw [if_neg (by simp [hto]), if_pos (by simp [hdex, hprice])]

/-- C4, for an order sent to the contract `[6]` of the demo deployment with an
empty payload. -/
theorem C4_invalid_order_price_witness :
    CreateTxWithPassphrase demoApi 0 { demoRequest with ToAddr := ⟨[6]⟩ } =
      ⟨none, some ⟨"invalid order price format"⟩, 279, [], 0⟩ :=
  C4_invalid_order_price demoApi 0 { demoRequest with ToAddr := ⟨[6]⟩ }
    (by decide) (by decide) (by decide)

/-! ### C5: the difficulty check -/

/-- C5: a supplied difficulty that `SetString` rejects makes the request fail
with no hash, and the only collaborator call made is the token check; if the
recipient, order-price, amount and token checks pass, the error is
`ErrStrToBigInt`, returned from line 292.  A request without a difficulty is
never stopped at line 292, and every message handed to the generator carries
no difficulty. -/
theorem C5_difficulty_check (m : WalletApi σ) (w : σ) (params : CreateTransferTxParms) :
    (∀ d, params.Difficulty = some d → SetString d = none →
      (CreateTxWithPassphrase m w params).value = none ∧
      (CreateTxWithPassphrase m w params).err ≠ none ∧
      (∀ c ∈ (CreateTxWithPassphrase m w params).calls, c.isAfterValidation = false) ∧
      (m.checkTxToAddressAvailable params.ToAddr = true →
        (params.ToAddr = m.AddressDexFund → m.VerifyNewOrderPriceForRpc params.Data = true) →
        (SetString params.Amount).isSome = true →
        (m.checkTokenIdValid w params.TokenTypeId).1 = none →
        (CreateTxWithPassphrase m w params).err = some m.ErrStrToBigInt ∧
        (CreateTxWithPassphrase m w params).line = 292)) ∧
    (params.Difficulty = none →
      (CreateTxWithPassphrase m w params).line ≠ 292 ∧
      (∀ g msg producer signer,
        Call.GenerateWithMessage g msg producer signer ∈
          (CreateTxWithPassphrase m w params).calls → msg.Difficulty = none) ∧
      (∀ amount w1, m.checkTxToAddressAvailable params.ToAddr = true →
        (params.ToAddr = m.AddressDexFund → m.VerifyNewOrderPriceForRpc params.Data = true) →
        SetString params.Amount = some amount →
        m.checkTokenIdValid w params.TokenTypeId = (none, w1) →
        CreateTxWithPassphrase m w params =
          generateAndSubmit m w1 [.checkTokenIdValid params.TokenTypeId] params
            (incomingMessage params amount none))) := by
  have hreach : ∀ d, params.Difficulty = some d → SetString d = none →
      ∀ msg w1, Validated m w params msg w1 → False := by
    intro d hd hs msg w1 hv
    obtain ⟨-, -, -, amount, difficulty, -, hdiff, -⟩ := hv
    rcases hdiff with ⟨hn, -⟩ | ⟨d2, v, hd2, hs2, -⟩
    · rw [hd] at hn
      exact Option.noConfusion hn
    · rw [hd] at hd2
      cases hd2
      rw [hs] at hs2
      exact Option.noConfusion hs2
  refine ⟨?_, ?_⟩
  · intro d hd hs
    refine ⟨?_, ?_, ?_, ?_⟩
    · rcases create_cases m w params with ⟨-, h⟩ | ⟨-, -, -, h⟩ | ⟨-, -, -, h⟩ |
        ⟨_, _, _, -, -, -, -, h⟩ | ⟨_, _, _, -, -, -, -, -, -, h⟩ | ⟨msg, w1, hv, -⟩
      · rw [h]
      · rw [h]
      · rw [h]
      · rw [h]
      · rw [h]
      · exact (hreach d hd hs msg w1 hv).elim
    · rcases create_cases m w params with ⟨-, h⟩ | ⟨-, -, -, h⟩ | ⟨-, -, -, h⟩ |
        ⟨_, _, _, -, -, -, -, h⟩ | ⟨_, _, _, -, -, -, -, -, -, h⟩ | ⟨msg, w1, hv, -⟩
      · rw [h]; simp
      · rw [h]; simp
      · rw [h]; simp
      · rw [h]; simp
      · rw [h]; simp
      · exact (hreach d hd hs msg w1 hv).elim
    · rcases create_cases m w params with ⟨-, h⟩ | ⟨-, -, -, h⟩ | ⟨-, -, -, h⟩ |
        ⟨_, _, _, -, -, -, -, h⟩ | ⟨_, _, _, -, -, -, -, -, -, h⟩ | ⟨msg, w1, hv, -⟩
      · rw [h]; simp
      · rw [h]; simp
      · rw [h]; simp
      · rw [h]; simp [Call.isAfterValidation]
      · rw [h]; simp [Call.isAfterValidation]
      · exact (hreach d hd hs msg w1 hv).elim
    · intro hto hdex ham htok
      rcases create_cases m w params with ⟨h0, -⟩ | ⟨-, h0, h1, -⟩ | ⟨-, -, h0, -⟩ |
        ⟨_, _, _, -, -, -, h0, -⟩ | ⟨_, _, _, -, -, -, -, -, -, h⟩ | ⟨msg, w1, hv, -⟩
      · rw [hto] at h0
        exact Bool.noConfusion h0
      · rw [hdex h0] at h1
        exact Bool.noConfusion h1
      · rw [h0] at ham
        exact Bool.noConfusion ham
      · rw [h0] at htok
        exact Option.noConfusion htok
      · rw [h]
        exact ⟨rfl, rfl⟩
      · exact (hreach d hd hs msg w1 hv).elim
  · intro hd
    refine ⟨?_, ?_, ?_⟩
    · rcases create_cases m w params with ⟨-, h⟩ | ⟨-, -, -, h⟩ | ⟨-, -, -, h⟩ |
        ⟨_, _, _, -, -, -, -, h⟩ | ⟨_, _, d, -, -, -, -, hd2, -, -⟩ | ⟨msg, w1, -, h⟩
      · rw [h]; simp
      · rw [h]; simp
      · rw [h]; simp
      · rw [h]; simp
      · rw [hd] at hd2
        exact Option.noConfusion hd2
      · rw [h]
        have := generateAndSubmit_line m w1 [.checkTokenIdValid params.TokenTypeId] params msg
        omega
    · intro g msg2 producer signer hc
      rcases create_cases m w params with ⟨-, h⟩ | ⟨-, -, -, h⟩ | ⟨-, -, -, h⟩ |
        ⟨_, _, _, -, -, -, -, h⟩ | ⟨_, _, _, -, -, -, -, -, -, h⟩ | ⟨msg, w1, hv, h⟩
      · rw [h] at hc; simp at hc
      · rw [h] at hc; simp at hc
      · rw [h] at hc; simp at hc
      · rw [h] at hc; simp at hc
      · rw [h] at hc; simp at hc
      · rw [h] at hc
        rcases generateAndSubmit_generate m w1 _ params msg g msg2 producer signer hc with hpre | rfl
        · simp at hpre
        · obtain ⟨-, -, -, amount, difficulty, -, hdiff, rfl⟩ := hv
          rcases hdiff with ⟨-, rfl⟩ | ⟨d2, v, hd2, -, -⟩
          · rfl
          · rw [hd] at hd2
            exact Option.noConfusion hd2
    · intro amount w1 hto hdex ham htok
      exact create_of_validated m w params _ w1
        ⟨hto, hdex, htok, amount, none, ham, Or.inl ⟨hd, rfl⟩, rfl⟩

/-- C5, for the difficulty `abc` in the demo deployment, and for the demo
request, which has no difficulty. -/
theorem C5_difficulty_check_witness :
    ((CreateTxWithPassphrase demoApi 0 { demoRequest with Difficulty := some "abc" }).value = none ∧
      (CreateTxWithPassphrase demoApi 0 { demoRequest with Difficulty := some "abc" }).err =
        some ⟨"convert to big.Int failed"⟩ ∧
      (CreateTxWithPassphrase demoApi 0 { demoRequest with Difficulty := some "abc" }).line = 292) ∧
    (CreateTxWithPassphrase demoApi 0 demoRequest).line ≠ 292 :=
  have h := (C5_difficulty_check demoApi 0 { demoRequest with Difficulty := some "abc" }).1
    "abc" rfl (by decide)
  have h2 := h.2.2.2 (by decide) (by decide) (by decide) (by decide)
  ⟨⟨h.1, h2.1, h2.2⟩, ((C5_difficulty_check demoApi 0 demoRequest).2 rfl).1⟩

/-! ### C3: the amount check -/

/-- C3 (fails as stated): the amount `-1` is not rejected.  In the demo
deployment the request goes through, and the generator is handed the amount
`-1`. -/
theorem C3_negative_amount_accepted :
    (CreateTxWithPassphrase demoApi 0 { demoRequest with Amount := "-1" }).err = none ∧
    (CreateTxWithPassphrase demoApi 0 { demoRequest with Amount := "-1" }).value = some ⟨[5]⟩ ∧
    Call.GenerateWithMessage ⟨7⟩
        (incomingMessage { demoRequest with Amount := "-1" } (-1) none) ⟨[4]⟩ ⟨3⟩ ∈
      (CreateTxWithPassphrase demoApi 0 { demoRequest with Amount := "-1" }).calls := by
  decide

/-- C3 (amended): for a request that passes the recipient and order-price
checks, the amount check rejects (line 283) exactly the strings that are not
an optional `+` or `-` followed by one or more decimal digits; a rejected
request gets `ErrStrToBigInt` and no hash with no collaborator call made; an
accepted one goes on to the token check, and every message handed to the
generator carries exactly the signed integer the string writes. -/
theorem C3_amount_check (m : WalletApi σ) (w : σ) (params : CreateTransferTxParms)
    (hto : m.checkTxToAddressAvailable params.ToAddr = true)
    (hdex : params.ToAddr = m.AddressDexFund → m.VerifyNewOrderPriceForRpc params.Data = true) :
    ((CreateTxWithPassphrase m w params).line = 283 ↔ ¬ ∃ v, Denotes params.Amount v) ∧
    ((¬ ∃ v, Denotes params.Amount v) →
      CreateTxWithPassphrase m w params = ⟨none, some m.ErrStrToBigInt, 283, [], w⟩) ∧
    (∀ v, Denotes params.Amount v →
      (CreateTxWithPassphrase m w params).calls.head? =
        some (.checkTokenIdValid params.TokenTypeId) ∧
      ∀ g msg producer signer,
        Call.GenerateWithMessage g msg producer signer ∈
          (CreateTxWithPassphrase m w params).calls → msg.Amount = some v) := by
  have hnone : SetString params.Amount = none → ¬ ∃ v, Denotes params.Amount v := by
    rintro h ⟨v, hv⟩
    rw [(SetString_iff _ _).mpr hv] at h
    exact Option.noConfusion h
  have hsome : ∀ a, SetString params.Amount = some a → ∃ v, Denotes params.Amount v :=
    fun a h => ⟨a, (SetString_iff _ _).mp h⟩
  rcases create_cases m w params with ⟨h0, -⟩ | ⟨-, h0, h1, -⟩ | ⟨-, -, ham, h⟩ |
    ⟨a, _, _, -, -, ham, -, h⟩ | ⟨a, _, _, -, -, ham, -, -, -, h⟩ | ⟨msg, w1, hv, h⟩
  · rw [hto] at h0
    exact Bool.noConfusion h0
  · rw [hdex h0] at h1
    exact Bool.noConfusion h1
  · refine ⟨?_, fun _ => h, ?_⟩
    · rw [h]
      simpa using hnone ham
    · intro v hv
      exact absurd ⟨v, hv⟩ (hnone ham)
  · refine ⟨?_, fun hn => absurd (hsome a ham) hn, ?_⟩
    · rw [h]
      simpa using hsome a ham
    · intro v hv
      rw [h]
      simp
  · refine ⟨?_, fun hn => absurd (hsome a ham) hn, ?_⟩
    · rw [h]
      simpa using hsome a ham
    · intro v hv
      rw [h]
      simp
  · obtain ⟨-, -, -, a, difficulty, ham, -, hmsg⟩ := hv
    have hline := generateAndSubmit_line m w1 [.checkTokenIdValid params.TokenTypeId] params msg
    refine ⟨?_, fun hn => absurd (hsome a ham) hn, ?_⟩
    · rw [h]
      constructor
      · intro h283
        omega
      · intro hn
        exact absurd (hsome a ham) hn
    · intro v hv
      have hva : a = v := by
        have := (SetString_iff _ _).mpr hv
        rw [ham] at this
        exact Option.some.inj this
      rw [h]
      refine ⟨generateAndSubmit_head m w1 _ [] params msg, ?_⟩
      intro g msg2 producer signer hc
      rcases generateAndSubmit_generate m w1 _ params msg g msg2 producer signer hc with hpre | rfl
      · simp at hpre
      · rw [hmsg, ← hva]
        rfl

/-- C3 (amended), for the amounts `-1` and `x1` in the demo deployment. -/
theorem C3_amount_check_witness :
    (∀ g msg producer signer,
      Call.GenerateWithMessage g msg producer signer ∈
        (CreateTxWithPassphrase demoApi 0 { demoRequest with Amount := "-1" }).calls →
      msg.Amount = some (-1)) ∧
    CreateTxWithPassphrase demoApi 0 { demoRequest with Amount := "x1" } =
      ⟨none, some ⟨"convert to big.Int failed"⟩, 283, [], 0⟩ :=
  ⟨((C3_amount_check demoApi 0 { demoRequest with Amount := "-1" } (by decide) (by decide)).2.2
      (-1) ((SetString_iff _ _).mp (by decide))).2,
    (C3_amount_check demoApi 0 { demoRequest with Amount := "x1" } (by decide) (by decide)).2.1
      (fun ⟨v, hv⟩ => Option.noConfusion
        (((SetString_iff "x1" v).mpr hv).symm.trans (by decide : SetString "x1" = none)))⟩

/-! ### C6: the three outcomes of generation -/

/-- The message of a validated request names the sender of the request. -/
theorem Validated.sender {m : WalletApi σ} {w : σ} {params : CreateTransferTxParms}
    {msg : IncomingMessage} {w1 : σ} (hv : Validated m w params msg w1) :
    msg.AccountAddress = params.SelfAddr := by
  obtain ⟨-, -, -, amount, difficulty, -, -, rfl⟩ := hv
  rfl

/-- C6: after validation, a state lookup that found a state, a constructed
generator and a resolved key, the three outcomes of generation are handled
apart: a failed call with error `e` gives `(nil, e)` from line 323; a result
carrying a domain error `d` gives `(nil, d)` from line 326, whatever block it
carries; a result with neither error nor block gives `(nil, empty-block
error)` from line 331.  In none of the three is the pool called. -/
theorem C6_generation_outcomes (m : WalletApi σ) (w : σ) (params : CreateTransferTxParms)
    (msg : IncomingMessage) (w1 w2 w3 w4 : σ) (st : AddressState) (g : Generator)
    (account : Account)
    (hv : Validated m w params msg w1)
    (hs : m.GetAddressStateForGenerator w1 params.SelfAddr = ((some st, none), w2))
    (hg : m.NewGenerator w2 params.SelfAddr st.LatestSnapshotHash st.LatestAccountHash =
      (.ok g, w3))
    (hk : m.AccountSearch w3 params.EntropystoreFile params.SelfAddr params.Passphrase =
      (.ok account, w4)) :
    (∀ e w5, m.GenerateWithMessage w4 g msg params.SelfAddr account = (.error e, w5) →
      (CreateTxWithPassphrase m w params).value = none ∧
      (CreateTxWithPassphrase m w params).err = some e ∧
      (CreateTxWithPassphrase m w params).line = 323 ∧
      ∀ c ∈ (CreateTxWithPassphrase m w params).calls, c.isPoolCall = false) ∧
    (∀ res d w5, m.GenerateWithMessage w4 g msg params.SelfAddr account = (.ok res, w5) →
      res.Err = some d →
      (CreateTxWithPassphrase m w params).value = none ∧
      (CreateTxWithPassphrase m w params).err = some d ∧
      (CreateTxWithPassphrase m w params).line = 326 ∧
      ∀ c ∈ (CreateTxWithPassphrase m w params).calls, c.isPoolCall = false) ∧
    (∀ res w5, m.GenerateWithMessage w4 g msg params.SelfAddr account = (.ok res, w5) →
      res.Err = none → res.VMBlock = none →
      (CreateTxWithPassphrase m w params).value = none ∧
      (CreateTxWithPassphrase m w params).err = some errEmptyBlock ∧
      (CreateTxWithPassphrase m w params).line = 331 ∧
      ∀ c ∈ (CreateTxWithPassphrase m w params).calls, c.isPoolCall = false) := by
  have hsend := hv.sender
  rw [create_of_validated m w params msg w1 hv]
  unfold generateAndSubmit
  rw [hsend]
  dsimp only
  rw [hs]
  dsimp only
  rw [hg]
  dsimp only
  rw [hk]
  dsimp only
  refine ⟨?_, ?_, ?_⟩
  · intro e w5 hgen
    rw [hgen]
    simp [Call.isPoolCall]
  · intro res d w5 hgen hd
    rw [hgen]
    simp [hd, Call.isPoolCall]
  · intro res w5 hgen hd hb
    rw [hgen]
    simp [hd, hb, Call.isPoolCall]

/-- C6, in three variants of the demo deployment: a generator call that
fails, a result with a block and a domain error, an empty result. -/
theorem C6_generation_outcomes_witness :
    ((CreateTxWithPassphrase failingGeneratorApi 0 demoRequest).value = none ∧
      (CreateTxWithPassphrase failingGeneratorApi 0 demoRequest).err =
        some ⟨"generator: vm panic"⟩) ∧
    ((CreateTxWithPassphrase domainErrorApi 0 demoRequest).value = none ∧
      (CreateTxWithPassphrase domainErrorApi 0 demoRequest).err =
        some ⟨"insufficient balance for transfer"⟩) ∧
    ((CreateTxWithPassphrase emptyResultApi 0 demoRequest).value = none ∧
      (CreateTxWithPassphrase emptyResultApi 0 demoRequest).err =
        some ⟨"generator gen an empty block"⟩) :=
  have h1 := (C6_generation_outcomes failingGeneratorApi 0 demoRequest
    (incomingMessage demoRequest 10 none) 1 2 3 4 ⟨⟨[1]⟩, ⟨[2]⟩⟩ ⟨7⟩ ⟨3⟩
    ⟨by decide, by decide, rfl, 10, none, by decide, Or.inl ⟨rfl, rfl⟩, rfl⟩ rfl rfl rfl).1
    ⟨"generator: vm panic"⟩ 5 rfl
  have h2 := (C6_generation_outcomes domainErrorApi 0 demoRequest
    (incomingMessage demoRequest 10 none) 1 2 3 4 ⟨⟨[1]⟩, ⟨[2]⟩⟩ ⟨7⟩ ⟨3⟩
    ⟨by decide, by decide, rfl, 10, none, by decide, Or.inl ⟨rfl, rfl⟩, rfl⟩ rfl rfl rfl).2.1
    ⟨some ⟨⟨⟨[5]⟩⟩, 0⟩, false, some ⟨"insufficient balance for transfer"⟩⟩
    ⟨"insufficient balance for transfer"⟩ 5 rfl rfl
  have h3 := (C6_generation_outcomes emptyResultApi 0 demoRequest
    (incomingMessage demoRequest 10 none) 1 2 3 4 ⟨⟨[1]⟩, ⟨[2]⟩⟩ ⟨7⟩ ⟨3⟩
    ⟨by decide, by decide, rfl, 10, none, by decide, Or.inl ⟨rfl, rfl⟩, rfl⟩ rfl rfl rfl).2.2
    ⟨none, false, none⟩ 5 rfl rfl rfl
  ⟨⟨h1.1, h1.2.1⟩, ⟨h2.1, h2.2.1⟩, ⟨h3.1, h3.2.1⟩⟩

/-! ### C7: submission to the pool -/

/-- C7: the call list of `CreateTxWithPassphrase` holds at most one pool
call.  If it holds the call `AddDirectAccountBlock a b`, then the request was
validated, the address-state lookup returned a state and no error, the
generator was constructed, the key was resolved and generation returned the
block `b` with no error; `a` is the sender of the request, the returned hash
is the hash of `b`, and the returned error and world are the ones that very
pool call returned. -/
theorem C7_pool_submission (m : WalletApi σ) (w : σ) (params : CreateTransferTxParms) :
    ((CreateTxWithPassphrase m w params).calls.countP Call.isPoolCall ≤ 1) ∧
    ∀ a b, Call.AddDirectAccountBlock a b ∈ (CreateTxWithPassphrase m w params).calls →
      ∃ msg w1 st w2 g w3 account w4 res w5,
        Validated m w params msg w1 ∧
        m.GetAddressStateForGenerator w1 params.SelfAddr = ((some st, none), w2) ∧
        m.NewGenerator w2 params.SelfAddr st.LatestSnapshotHash st.LatestAccountHash =
          (.ok g, w3) ∧
        m.AccountSearch w3 params.EntropystoreFile params.SelfAddr params.Passphrase =
          (.ok account, w4) ∧
        m.GenerateWithMessage w4 g msg params.SelfAddr account = (.ok res, w5) ∧
        res.Err = none ∧ res.VMBlock = some b ∧
        a = params.SelfAddr ∧
        (CreateTxWithPassphrase m w params).value = some b.AccountBlock.Hash ∧
        (CreateTxWithPassphrase m w params).err =
          (m.AddDirectAccountBlock w5 params.SelfAddr b).1 ∧
        (CreateTxWithPassphrase m w params).world =
          (m.AddDirectAccountBlock w5 params.SelfAddr b).2 ∧
        (CreateTxWithPassphrase m w params).line = 329 := by
  rcases create_cases m w params with ⟨-, h⟩ | ⟨-, -, -, h⟩ | ⟨-, -, -, h⟩ |
    ⟨_, _, _, -, -, -, -, h⟩ | ⟨_, _, _, -, -, -, -, -, -, h⟩ | ⟨msg, w1, hv, h⟩
  · rw [h]; simp
  · rw [h]; simp
  · rw [h]; simp
  · rw [h]; simp [Call.isPoolCall]
  · rw [h]; simp [Call.isPoolCall]
  · have hsend := hv.sender
    rw [h]
    unfold generateAndSubmit
    rw [hsend]
    dsimp only
    split
    · simp [Call.isPoolCall]
    · simp [Call.isPoolCall]
    · rename_i st w2 hs
      split
      · simp [Call.isPoolCall]
      · rename_i g w3 hg
        split
        · simp [Call.isPoolCall]
        · rename_i account w4 hk
          split
          · simp [Call.isPoolCall]
          · rename_i res w5 hgen
            split
            · simp [Call.isPoolCall]
            · rename_i hd
              split
              · rename_i block hb
                refine ⟨by simp [Call.isPoolCall], ?_⟩
                intro a b hmem
                simp only [List.cons_append, List.nil_append, List.mem_cons,
                  List.mem_singleton, Call.AddDirectAccountBlock.injEq, false_or,
                  reduceCtorEq, List.mem_nil_iff, or_false] at hmem
                obtain ⟨rfl, rfl⟩ := hmem
                exact ⟨msg, w1, st, w2, g, w3, account, w4, res, w5, hv, hs, hg, hk, hgen, hd,
                  hb, rfl, rfl, rfl, rfl, rfl⟩
              · simp [Call.isPoolCall]

/-- C7, in the demo deployment: the block generated for the demo request is
submitted, and its hash is returned with the nil error of the pool. -/
theorem C7_pool_submission_witness :
    (CreateTxWithPassphrase demoApi 0 demoRequest).value = some ⟨[5]⟩ ∧
    (CreateTxWithPassphrase demoApi 0 demoRequest).err = none :=
  have ⟨_, _, _, _, _, _, _, _, res, _, _, _, _, _, hgen, _, hb, _, hval, herr, _, _⟩ :=
    (C7_pool_submission demoApi 0 demoRequest).2 ⟨[4]⟩ ⟨⟨⟨[5]⟩⟩, 0⟩ (by decide)
  ⟨hval, herr⟩

/-! ### C8: the address-state lookup -/

/-- Appending to the same text is injective. -/
theorem string_append_left_cancel (a b c : String) (h : a ++ b = a ++ c) : b = c := by
  have h2 := congrArg String.data h
  simp only [String.data_append] at h2
  exact String.ext (List.append_cancel_left h2)

/-- The error built for a lookup that failed with `e` differs from the one
built for a lookup without state as soon as the text of `e` is not `<nil>`. -/
theorem errAddrState_ne (e : GoError) (h : e.text ≠ "<nil>") :
    errAddrState (some e) ≠ errAddrState none := by
  intro heq
  simp only [errAddrState, fmtV, GoError.mk.injEq] at heq
  exact h (string_append_left_cancel _ _ _ heq)

/-- C8 (fails as stated): a lookup that fails with an error whose text is
`<nil>` and a lookup that finds no state make `CreateTxWithPassphrase` return
the same error. -/
theorem C8_lookup_errors_coincide :
    (nilTextLookupApi.GetAddressStateForGenerator 1 ⟨[4]⟩).1 = (none, some ⟨"<nil>"⟩) ∧
    (noStateApi.GetAddressStateForGenerator 1 ⟨[4]⟩).1 = (none, none) ∧
    (CreateTxWithPassphrase nilTextLookupApi 0 demoRequest).err =
      some ⟨"failed to get addr state for generator, err:<nil>"⟩ ∧
    (CreateTxWithPassphrase noStateApi 0 demoRequest).err =
      some ⟨"failed to get addr state for generator, err:<nil>"⟩ := by
  decide

/-- C8 (amended): for a validated request, a lookup that fails with an error
`e`, and a lookup that returns neither state nor error, both end the request
at line 309 with no hash, after the token check and the lookup and no other
call; the error is the formatted text ending in the text of `e`, or in
`<nil>` when there was no state, and the two differ whenever the text of `e`
is not `<nil>`. -/
theorem C8_address_state_unavailable (m : WalletApi σ) (w : σ)
    (params : CreateTransferTxParms) (msg : IncomingMessage) (w1 : σ)
    (hv : Validated m w params msg w1) :
    (∀ st e w2, m.GetAddressStateForGenerator w1 params.SelfAddr = ((st, some e), w2) →
      CreateTxWithPassphrase m w params =
        ⟨none, some (errAddrState (some e)), 309,
          [.checkTokenIdValid params.TokenTypeId, .GetAddressStateForGenerator params.SelfAddr],
          w2⟩) ∧
    (∀ w2, m.GetAddressStateForGenerator w1 params.SelfAddr = ((none, none), w2) →
      CreateTxWithPassphrase m w params =
        ⟨none, some (errAddrState none), 309,
          [.checkTokenIdValid params.TokenTypeId, .GetAddressStateForGenerator params.SelfAddr],
          w2⟩) ∧
    (∀ e : GoError, e.text ≠ "<nil>" → errAddrState (some e) ≠ errAddrState none) := by
  have hsend := hv.sender
  rw [create_of_validated m w params msg w1 hv]
  unfold generateAndSubmit
  rw [hsend]
  dsimp only
  refine ⟨?_, ?_, errAddrState_ne⟩
  · intro st e w2 hs
    rw [hs]
    cases st <;> rfl
  · intro w2 hs
    rw [hs]
    rfl

/-- C8 (amended), in the demo deployment on a chain without any state. -/
theorem C8_address_state_unavailable_witness :
    CreateTxWithPassphrase noStateApi 0 demoRequest =
      ⟨none, some (errAddrState none), 309,
        [.checkTokenIdValid ⟨[1]⟩, .GetAddressStateForGenerator ⟨[4]⟩], 2⟩ :=
  (C8_address_state_unavailable noStateApi 0 demoRequest (incomingMessage demoRequest 10 none) 1
    ⟨by decide, by decide, rfl, 10, none, by decide, Or.inl ⟨rfl, rfl⟩, rfl⟩).2.1 2 rfl

/-! ### C9: the passphrase and the errors before key resolution -/

/-- The second half of `CreateTxWithPassphrase` run with another passphrase:
a run that returns before key resolution is unchanged, and two runs that both
return an error of the function itself return the same error. -/
theorem generateAndSubmit_passphrase (m : WalletApi σ) (w : σ) (pre : List Call)
    (params : CreateTransferTxParms) (msg : IncomingMessage) (passphrase2 : String) :
    ((generateAndSubmit m w pre params msg).line ≤ 313 →
      generateAndSubmit m w pre { params with Passphrase := passphrase2 } msg =
        generateAndSubmit m w pre params msg) ∧
    (returnsOwnError (generateAndSubmit m w pre params msg).line = true →
      returnsOwnError
        (generateAndSubmit m w pre { params with Passphrase := passphrase2 } msg).line = true →
      (generateAndSubmit m w pre { params with Passphrase := passphrase2 } msg).err =
        (generateAndSubmit m w pre params msg).err) := by
  unfold generateAndSubmit
  dsimp only
  rcases m.GetAddressStateForGenerator w msg.AccountAddress with ⟨⟨st, e⟩, w1⟩
  cases e with
  | some err => cases st <;> simp
  | none =>
    cases st with
    | none => simp
    | some addrState =>
      dsimp only
      rcases m.NewGenerator w1 msg.AccountAddress addrState.LatestSnapshotHash
        addrState.LatestAccountHash with ⟨r, w2⟩
      cases r with
      | error e => simp
      | ok g =>
        dsimp only
        repeat' split
        all_goals simp [returnsOwnError]

/-- An error of its own that the second half of `CreateTxWithPassphrase`
returns comes from before key resolution or is the empty-block error. -/
theorem generateAndSubmit_own_error (m : WalletApi σ) (w : σ) (pre : List Call)
    (params : CreateTransferTxParms) (msg : IncomingMessage) :
    returnsOwnError (generateAndSubmit m w pre params msg).line = true →
      returnsBeforeKeyResolution (generateAndSubmit m w pre params msg).line = true ∨
      (generateAndSubmit m w pre params msg).err = some errEmptyBlock := by
  unfold generateAndSubmit
  dsimp only
  repeat' split
  all_goals simp [returnsOwnError, returnsBeforeKeyResolution]

/-- Changing the passphrase of a request leaves the validation part of
`CreateTxWithPassphrase` as it is: either both runs stop there with the same
outcome, or both continue at the address-state lookup from the same world
with the same message. -/
theorem create_passphrase_prefix (m : WalletApi σ) (w : σ) (params : CreateTransferTxParms)
    (passphrase2 : String) :
    (CreateTxWithPassphrase m w { params with Passphrase := passphrase2 } =
        CreateTxWithPassphrase m w params) ∨
    (∃ msg w1,
      CreateTxWithPassphrase m w params =
        generateAndSubmit m w1 [.checkTokenIdValid params.TokenTypeId] params msg ∧
      CreateTxWithPassphrase m w { params with Passphrase := passphrase2 } =
        generateAndSubmit m w1 [.checkTokenIdValid params.TokenTypeId]
          { params with Passphrase := passphrase2 } msg) := by
  rcases create_cases m w params with ⟨h0, h⟩ | ⟨h0, h1, h2, h⟩ | ⟨h0, h1, h2, h⟩ |
    ⟨a, err, w1, h0, h1, h2, h3, h⟩ | ⟨a, w1, d, h0, h1, h2, h3, h4, h5, h⟩ | ⟨msg, w1, hv, h⟩
  · rcases create_cases m w { params with Passphrase := passphrase2 } with
      ⟨-, k⟩ | ⟨k0, -⟩ | ⟨k0, -⟩ | ⟨_, _, _, k0, -⟩ | ⟨_, _, _, k0, -⟩ | ⟨_, _, ⟨k0, -⟩, -⟩
    · left
      rw [h, k]
    all_goals
      exfalso
      rw [show m.checkTxToAddressAvailable params.ToAddr = true from k0] at h0
      exact Bool.noConfusion h0
  · rcases create_cases m w { params with Passphrase := passphrase2 } with
      ⟨k0, -⟩ | ⟨-, -, -, k⟩ | ⟨-, k1, -⟩ | ⟨_, _, _, -, k1, -⟩ | ⟨_, _, _, -, k1, -⟩ |
      ⟨_, _, ⟨-, k1, -⟩, -⟩
    · exfalso
      rw [show m.checkTxToAddressAvailable params.ToAddr = false from k0] at h0
      exact Bool.noConfusion h0
    · left
      rw [h, k]
    all_goals
      exfalso
      rw [show m.VerifyNewOrderPriceForRpc params.Data = true from k1 h1] at h2
      exact Bool.noConfusion h2
  · rcases create_cases m w { params with Passphrase := passphrase2 } with
      ⟨k0, -⟩ | ⟨-, k1, k2, -⟩ | ⟨-, -, -, k⟩ | ⟨_, _, _, -, -, k2, -⟩ | ⟨_, _, _, -, -, k2, -⟩ |
      ⟨_, _, ⟨-, -, -, _, _, k2, -⟩, -⟩
    · exfalso
      rw [show m.checkTxToAddressAvailable params.ToAddr = false from k0] at h0
      exact Bool.noConfusion h0
    · exfalso
      rw [show m.VerifyNewOrderPriceForRpc params.Data = false from k2] at h1
      exact Bool.noConfusion (h1 k1)
    · left
      rw [h, k]
    all_goals
      exfalso
      rw [show SetString params.Amount = some _ from k2] at h2
      exact Option.noConfusion h2
  · left
    have k : CreateTxWithPassphrase m w { params with Passphrase := passphrase2 } =
        ⟨none, some err, 286, [.checkTokenIdValid params.TokenTypeId], w1⟩ := by
      have hdex2 : ¬ (params.ToAddr = m.AddressDexFund ∧
          m.VerifyNewOrderPriceForRpc params.Data = false) := by
        rintro ⟨e1, e2⟩
        rw [h1 e1] at e2
        exact Bool.noConfusion e2
      simp [CreateTxWithPassphrase, h0, hdex2, h2, h3]
    rw [h, k]
  · left
    have k : CreateTxWithPassphrase m w { params with Passphrase := passphrase2 } =
        ⟨none, some m.ErrStrToBigInt, 292, [.checkTokenIdValid params.TokenTypeId], w1⟩ := by
      have hdex2 : ¬ (params.ToAddr = m.AddressDexFund ∧
          m.VerifyNewOrderPriceForRpc params.Data = false) := by
        rintro ⟨e1, e2⟩
        rw [h1 e1] at e2
        exact Bool.noConfusion e2
      simp [CreateTxWithPassphrase, h0, hdex2, h2, h3, h4, h5]
    rw [h, k]
  · right
    exact ⟨msg, w1, h,
      create_of_validated m w { params with Passphrase := passphrase2 } msg w1 hv⟩

/-- C9: take a request and the same request with another passphrase, run
against the same deployment from the same world.  If the first run returns
before key resolution (line 313 or earlier: recipient, order-price, amount,
token or difficulty check, address-state lookup, generator construction), the
second run is identical to it: same return line, same error, same calls, same
world.  Whenever both runs return an error produced by the function itself,
it is the same error; and such an error is either returned before key
resolution or is the fixed empty-block error. -/
theorem C9_passphrase_never_reaches_errors (m : WalletApi σ) (w : σ)
    (params : CreateTransferTxParms) (passphrase2 : String) :
    (returnsBeforeKeyResolution (CreateTxWithPassphrase m w params).line = true →
      CreateTxWithPassphrase m w { params with Passphrase := passphrase2 } =
        CreateTxWithPassphrase m w params) ∧
    (returnsOwnError (CreateTxWithPassphrase m w params).line = true →
      returnsOwnError
        (CreateTxWithPassphrase m w { params with Passphrase := passphrase2 }).line = true →
      (CreateTxWithPassphrase m w { params with Passphrase := passphrase2 }).err =
        (CreateTxWithPassphrase m w params).err) ∧
    (returnsOwnError (CreateTxWithPassphrase m w params).line = true →
      returnsBeforeKeyResolution (CreateTxWithPassphrase m w params).line = true ∨
      (CreateTxWithPassphrase m w params).err = some errEmptyBlock) := by
  refine ⟨?_, ?_, ?_⟩
  · rcases create_passphrase_prefix m w params passphrase2 with h | ⟨msg, w1, h, k⟩
    · exact fun _ => h
    · rw [h, k]
      intro hl
      refine (generateAndSubmit_passphrase m w1 _ params msg passphrase2).1 ?_
      simpa [returnsBeforeKeyResolution] using hl
  · rcases create_passphrase_prefix m w params passphrase2 with h | ⟨msg, w1, h, k⟩
    · rw [h]
      exact fun _ _ => rfl
    · rw [h, k]
      exact (generateAndSubmit_passphrase m w1 _ params msg passphrase2).2
  · rcases create_cases m w params with ⟨-, h⟩ | ⟨-, -, -, h⟩ | ⟨-, -, -, h⟩ |
      ⟨_, _, _, -, -, -, -, h⟩ | ⟨_, _, _, -, -, -, -, -, -, h⟩ | ⟨msg, w1, -, h⟩
    · rw [h]; exact fun _ => Or.inl rfl
    · rw [h]; exact fun _ => Or.inl rfl
    · rw [h]; exact fun _ => Or.inl rfl
    · rw [h]; exact fun _ => Or.inl rfl
    · rw [h]; exact fun _ => Or.inl rfl
    · rw [h]
      exact generateAndSubmit_own_error m w1 _ params msg

/-- C9, in the demo deployment on a chain without any state: the request
fails at the address-state lookup whatever its passphrase is. -/
theorem C9_passphrase_never_reaches_errors_witness :
    CreateTxWithPassphrase noStateApi 0 { demoRequest with Passphrase := "hunter2" } =
      CreateTxWithPassphrase noStateApi 0 demoRequest :=
  (C9_passphrase_never_reaches_errors noStateApi 0 demoRequest "hunter2").1 (by decide)

/-! ### C10: signing a raw message -/

/-- A hex digit written by `hextable` is read back by `fromHexChar`. -/
theorem fromHexChar_hextable (n : Fin 16) :
    fromHexChar (hextable.getD n.val '0') = some n.val := by
  revert n
  decide

/-- Decoding the hex encoding of a byte string gives the byte string back. -/
theorem Decode_Encode (src : List Byte) : Decode (Encode src) = some src := by
  induction src with
  | nil => rfl
  | cons v rest ih =>
    have h1 := fromHexChar_hextable ⟨v.val / 16, by omega⟩
    have h2 := fromHexChar_hextable ⟨v.val % 16, by omega⟩
    simp only at h1 h2
    simp only [Encode, Decode, h1, h2, ih]
    congr 2
    apply Fin.ext
    simp only [Fin.ofNat, Fin.val_mk]
    omega

/-- The string form of `Decode_Encode`. -/
theorem DecodeString_EncodeToString (src : List Byte) :
    DecodeString (EncodeToString src) = some src :=
  Decode_Encode src

/-- C10: `SignData` and `SignDataWithPassphrase` follow the reduced path.
If `HexToHash` rejects the message, both fail with its error and no result
before any collaborator call.  If the key lookup (`Account`, respectively
`AccountSearch` with no store selector) fails, or signing the bytes of the
hash fails, that error is returned with no result.  Otherwise the result has
the input string as `Message`, the hex encodings of the signature and public
key that `Sign` returned as `SignedData` and `Pubkey`, and hex-decoding the
two fields gives those bytes back.  Every call made goes to the wallet. -/
theorem C10_sign_data (m : WalletApi σ) (w : σ) (addr : Address) (hexMsg passphrase : String) :
    (∀ err, m.HexToHash hexMsg = .error err →
      SignData m w addr hexMsg = ⟨none, some err, 253, [], w⟩ ∧
      SignDataWithPassphrase m w addr hexMsg passphrase = ⟨none, some err, 339, [], w⟩) ∧
    (∀ hash, m.HexToHash hexMsg = .ok hash →
      (∀ e w1, m.Account w addr = (.error e, w1) →
        (SignData m w addr hexMsg).value = none ∧ (SignData m w addr hexMsg).err = some e) ∧
      (∀ e w1, m.AccountSearch w none addr passphrase = (.error e, w1) →
        (SignDataWithPassphrase m w addr hexMsg passphrase).value = none ∧
        (SignDataWithPassphrase m w addr hexMsg passphrase).err = some e) ∧
      (∀ account w1 e w2, m.Account w addr = (.ok account, w1) →
        m.Sign w1 account hash.bytes = (.error e, w2) →
        (SignData m w addr hexMsg).value = none ∧ (SignData m w addr hexMsg).err = some e) ∧
      (∀ account w1 e w2, m.AccountSearch w none addr passphrase = (.ok account, w1) →
        m.Sign w1 account hash.bytes = (.error e, w2) →
        (SignDataWithPassphrase m w addr hexMsg passphrase).value = none ∧
        (SignDataWithPassphrase m w addr hexMsg passphrase).err = some e) ∧
      (∀ account w1 signedData pubkey w2, m.Account w addr = (.ok account, w1) →
        m.Sign w1 account hash.bytes = (.ok (signedData, pubkey), w2) →
        (SignData m w addr hexMsg).err = none ∧
        ∃ t, (SignData m w addr hexMsg).value = some t ∧ t.Message = hexMsg ∧
          t.SignedData = EncodeToString signedData ∧ t.Pubkey = EncodeToString pubkey ∧
          DecodeString t.SignedData = some signedData ∧ DecodeString t.Pubkey = some pubkey) ∧
      (∀ account w1 signedData pubkey w2,
        m.AccountSearch w none addr passphrase = (.ok account, w1) →
        m.Sign w1 account hash.bytes = (.ok (signedData, pubkey), w2) →
        (SignDataWithPassphrase m w addr hexMsg passphrase).err = none ∧
        ∃ t, (SignDataWithPassphrase m w addr hexMsg passphrase).value = some t ∧
          t.Message = hexMsg ∧
          t.SignedData = EncodeToString signedData ∧ t.Pubkey = EncodeToString pubkey ∧
          DecodeString t.SignedData = some signedData ∧ DecodeString t.Pubkey = some pubkey)) ∧
    (∀ c ∈ (SignData m w addr hexMsg).calls, c.isWalletCall = true) ∧
    (∀ c ∈ (SignDataWithPassphrase m w addr hexMsg passphrase).calls, c.isWalletCall = true) := by
  refine ⟨?_, ?_, ?_, ?_⟩
  · intro err hh
    simp [SignData, SignDataWithPassphrase, hh]
  · intro hash hh
    refine ⟨?_, ?_, ?_, ?_, ?_, ?_⟩
    · intro e w1 ha
      simp [SignData, hh, ha]
    · intro e w1 ha
      simp [SignDataWithPassphrase, hh, ha]
    · intro account w1 e w2 ha hs
      simp [SignData, hh, ha, hs]
    · intro account w1 e w2 ha hs
      simp [SignDataWithPassphrase, hh, ha, hs]
    · intro account w1 signedData pubkey w2 ha hs
      simp [SignData, hh, ha, hs, DecodeString_EncodeToString]
    · intro account w1 signedData pubkey w2 ha hs
      simp [SignDataWithPassphrase, hh, ha, hs, DecodeString_EncodeToString]
  · unfold SignData
    repeat' split
    all_goals simp [Call.isWalletCall]
  · unfold SignDataWithPassphrase
    repeat' split
    all_goals simp [Call.isWalletCall]

/-- C10, in the demo deployment, for the message `0a0b`: the signature is
the hash bytes followed by `ab`, the public key is `cdef`. -/
theorem C10_sign_data_witness :
    (SignData demoApi 0 ⟨[4]⟩ "0a0b").value = some ⟨"0a0b", "0a0bab", "cdef"⟩ ∧
    (SignDataWithPassphrase demoApi 0 ⟨[4]⟩ "0a0b" "secret").value =
      some ⟨"0a0b", "0a0bab", "cdef"⟩ ∧
    SignData demoApi 0 ⟨[4]⟩ "0a0" = ⟨none, some ⟨"encoding/hex: invalid byte"⟩, 253, [], 0⟩ :=
  have h := (C10_sign_data demoApi 0 ⟨[4]⟩ "0a0b" "secret").2.1 ⟨[10, 11]⟩ rfl
  have ⟨t1, hv1, hm1, hs1, hp1, _, _⟩ := (h.2.2.2.2.1 ⟨3⟩ 1 [10, 11, 171] [205, 239] 2 rfl rfl).2
  have ⟨t2, hv2, hm2, hs2, hp2, _, _⟩ := (h.2.2.2.2.2 ⟨3⟩ 1 [10, 11, 171] [205, 239] 2 rfl rfl).2
  ⟨by rw [hv1]; cases t1; simp only at hm1 hs1 hp1; rw [hm1, hs1, hp1]; rfl,
   by rw [hv2]; cases t2; simp only at hm2 hs2 hp2; rw [hm2, hs2, hp2]; rfl,
   ((C10_sign_data demoApi 0 ⟨[4]⟩ "0a0" "secret").1 ⟨"encoding/hex: invalid byte"⟩ rfl).1⟩

end GoVite
